import Mathlib

/-!
Verification development for the Steam-Hour-Booster session supervisor
(`web/server.js`).  The server keeps a mutable map `bots` from account
username to an active bot client, an in-memory configuration cache
`configsArray`, and reacts to client events (`loggedOn`, `error`,
`disconnected`, `friendMessage`, `steamGuardRequested`) as well as HTTP
routes (start, stop, submit-guard, accounts listing, add/edit/delete).

The embedding below models the registry as an association list with the
JS-object semantics (first matching key wins on lookup; assignment
overwrites in place or appends), and models each operation as a pure
function returning the new state together with a trace of observable
events (log lines, status broadcasts, client calls, file-system calls).
Asynchronous failures (a rejected `fs.unlink`, a throwing `logOff`) are
supplied as explicit parameters so both outcomes can be reasoned about.
-/

set_option autoImplicit false

/-- Character-list test: does the first list occur at the head of the second? -/
def charsHeadMatch : List Char → List Char → Bool
  | [], _ => true
  | _ :: _, [] => false
  | a :: as, b :: bs => a == b && charsHeadMatch as bs

/-- Scan all suffixes for an occurrence of `pat`. -/
def charsIncludes (pat : List Char) : List Char → Bool
  | [] => pat.isEmpty
  | c :: cs => charsHeadMatch pat (c :: cs) || charsIncludes pat cs

/-- JavaScript `s.includes(pat)` on strings. -/
def strIncludes (s pat : String) : Bool :=
  charsIncludes pat.toList s.toList

/-- `SteamUser.EResult.InvalidPassword` from the steam protocol enum. -/
def eresultInvalidPassword : Nat := 5

/-- One entry of `configsArray` (`config/accounts.json`). -/
structure Config where
  username : String
  password : String
  sharedSecret : String
  enableStatus : Bool
  gamesAndStatus : List String
  replyMessage : String
  receiveMessages : Bool
  saveMessages : Bool
  deriving DecidableEq

/-- The state of one bot client relevant to `web/server.js`: the fields the
server reads (`username`, `autoMessage`, `receiveMessages`, `saveMessages`,
`messageReceived`, `loginKeyPath`, `_waitingForGuard`).  `loginKeyPath` is
`none` when the JS field is absent or falsy. -/
structure BotClient where
  username : String
  autoMessage : String
  receiveMessages : Bool
  saveMessages : Bool
  messageReceived : List String
  loginKeyPath : Option String
  waitingForGuard : Bool
  deriving DecidableEq

/-- An error object delivered to `bot.on('error')`: its message string and the
optional numeric `eresult` field. -/
structure SteamErr where
  message : String
  eresult : Option Nat
  deriving DecidableEq

/-- Observable events emitted while an operation runs: log lines
(`writeLog`), socket broadcasts (`io.emit('statusUpdate')`,
`io.emit('steamGuardRequest')`), calls into the bot client, and
file-system calls. -/
inductive Ev where
  | log (msg : String)
  | statusUpdate
  | buildClient (username : String)
  | doLoginCall (username : String)
  | logOffCall (username : String)
  | chatMessage (peer text : String)
  | saveMessage (username peer text : String)
  | unlink (path : String)
  | submitCode (username code : String)
  | steamGuardRequest (username : String)
  | saveConfigCall
  deriving DecidableEq

/-- The `bots` object: active bots keyed by username. -/
abbrev Registry := List (String × BotClient)

/-- JS property read `bots[u]`: first entry whose key equals `u`. -/
def regLookup : Registry → String → Option BotClient
  | [], _ => none
  | (k, b) :: rest, u => if k == u then some b else regLookup rest u

/-- JS `delete bots[u]`: removes every binding of `u` (a JS object holds at
most one). -/
def regErase (r : Registry) (u : String) : Registry :=
  r.filter (fun p => p.fst != u)

/-- JS assignment `bots[u] = b`: overwrite an existing binding in place,
otherwise append a fresh one. -/
def regInsert (r : Registry) (u : String) (b : BotClient) : Registry :=
  if (regLookup r u).isSome then
    r.map (fun p => if p.fst == u then (u, b) else p)
  else
    r ++ [(u, b)]

/-- Number of bindings of `u` in the registry. -/
def regCountKey (r : Registry) (u : String) : Nat :=
  (r.filter (fun p => p.fst == u)).length

/-- Modelled from the spec: `botFactory.buildBot` lives in
`src/hourBooster.js`, which is not part of the sources under `src/`.  Per the
spec the factory constructs a fresh Session Client from the account config:
the per-peer reply set (`seenPeers`, realised as `messageReceived`) starts
empty on each fresh start, no challenge is pending, and the login-key
artifact path is managed later by the client so it starts unset. -/
def buildBot (cfg : Config) : BotClient :=
  { username := cfg.username
    autoMessage := cfg.replyMessage
    receiveMessages := cfg.receiveMessages
    saveMessages := cfg.saveMessages
    messageReceived := []
    loginKeyPath := none
    waitingForGuard := false }

/-- `startBot(config)` (web/server.js:82-163), synchronous part: if the bot is
already in `bots`, log "already running" and return; otherwise log, build a
fresh client, register handlers, call `doLogin()`, store it in `bots`, and
broadcast a status update. -/
def startBot (cfg : Config) (r : Registry) : Registry × List Ev :=
  if (regLookup r cfg.username).isSome then
    (r, [Ev.log ("[" ++ cfg.username ++ "] Bot is already running.")])
  else
    (regInsert r cfg.username (buildBot cfg),
     [Ev.log ("[" ++ cfg.username ++ "] Starting bot..."),
      Ev.buildClient cfg.username,
      Ev.doLoginCall cfg.username,
      Ev.statusUpdate])

/-- `stopBot(username)` (web/server.js:166-183).  `logOffThrows` carries the
message of the exception `bot.logOff()` throws, or `none` when it returns
normally; either way the `finally` block deletes the entry, broadcasts, and
logs. -/
def stopBot (username : String) (logOffThrows : Option String) (r : Registry) :
    Registry × List Ev :=
  match regLookup r username with
  | none => (r, [Ev.log ("[" ++ username ++ "] Bot is not running.")])
  | some _ =>
      (regErase r username,
       [Ev.log ("[" ++ username ++ "] Stopping bot..."),
        Ev.logOffCall username] ++
       (match logOffThrows with
        | some m => [Ev.log ("[" ++ username ++ "] Error during logOff: " ++ m)]
        | none => []) ++
       [Ev.statusUpdate,
        Ev.log ("[" ++ username ++ "] Bot stopped.")])

/-- `bot.on('loggedOn')` handler (web/server.js:91-97): re-insert the bot when
absent, log success, broadcast. -/
def handleLoggedOn (username : String) (bot : BotClient) (r : Registry) :
    Registry × List Ev :=
  (if (regLookup r username).isSome then r else regInsert r username bot,
   [Ev.log ("[" ++ username ++ "] Logged in successfully. Playing games"),
    Ev.statusUpdate])

/-- `bot.on('error')` handler (web/server.js:99-126).  `unlinkFails` carries
the rejection message of `fs.unlink(bot.loginKeyPath)` when the deletion
fails, `none` when it succeeds; the rejection is only logged. -/
def handleError (username : String) (bot : BotClient) (err : SteamErr)
    (unlinkFails : Option String) (r : Registry) : Registry × List Ev :=
  let isLoggedInElsewhere := strIncludes err.message "LoggedInElsewhere"
  let evs1 :=
    if isLoggedInElsewhere then
      [Ev.log ("[" ++ username ++ "] Account logged in elsewhere, attempting to reconnect.")]
    else
      [Ev.log ("[" ++ username ++ "] Error: " ++ err.message)]
  let evs2 :=
    if err.eresult == some eresultInvalidPassword then
      match bot.loginKeyPath, unlinkFails with
      | some p, none => [Ev.unlink p]
      | some p, some m =>
          [Ev.unlink p,
           Ev.log ("[" ++ username ++ "] Could not delete old login key: " ++ m)]
      | none, _ => []
    else []
  if (regLookup r username).isSome && !isLoggedInElsewhere then
    (regErase r username, evs1 ++ evs2 ++ [Ev.statusUpdate])
  else
    (r, evs1 ++ evs2)

/-- `bot.on('disconnected')` handler (web/server.js:153-157): log, delete the
entry (a no-op deletion when absent), broadcast. -/
def handleDisconnected (username : String) (eresult : Nat) (msg : String)
    (r : Registry) : Registry × List Ev :=
  (regErase r username,
   [Ev.log ("[" ++ username ++ "] Disconnected: " ++ msg ++
            " (Result: " ++ toString eresult ++ ")"),
    Ev.statusUpdate])

/-- The JS property check `bot.messageReceived[steamID]`: is the peer in the
seen set? -/
def memStr (sid : String) : List String → Bool
  | [] => false
  | x :: xs => x == sid || memStr sid xs

/-- `bot.on('friendMessage')` handler (web/server.js:128-145): optional
receive log, optional save-to-file, and the auto-reply sent only when the
peer has not been replied to yet and `autoMessage` is truthy (non-empty). -/
def handleFriendMessage (bot : BotClient) (steamID message : String) :
    BotClient × List Ev :=
  let evs1 :=
    if bot.receiveMessages then
      [Ev.log ("[" ++ bot.username ++ "] Message from " ++ steamID ++ ": " ++ message)]
    else []
  let evs2 :=
    if bot.saveMessages then
      [Ev.saveMessage bot.username steamID message]
    else []
  if !(memStr steamID bot.messageReceived) && bot.autoMessage != "" then
    ({ bot with messageReceived := steamID :: bot.messageReceived },
     evs1 ++ evs2 ++ [Ev.chatMessage steamID bot.autoMessage])
  else
    (bot, evs1 ++ evs2)

/-- `bot.on('steamGuardRequested')` handler (web/server.js:147-150): broadcast
the request and log; the registry is untouched. -/
def handleSteamGuardRequested (username : String) (r : Registry) :
    Registry × List Ev :=
  (r, [Ev.steamGuardRequest username,
       Ev.log ("[" ++ username ++ "] Steam Guard code required.")])

/-- Deliver a sequence of `friendMessage` events to one bot in order,
threading its state and concatenating the traces. -/
def runMessages : BotClient → List (String × String) → BotClient × List Ev
  | bot, [] => (bot, [])
  | bot, (sid, msg) :: rest =>
      let s := handleFriendMessage bot sid msg
      let t := runMessages s.1 rest
      (t.1, s.2 ++ t.2)

/-- An HTTP response: status code and the `message` field of the JSON body. -/
structure ApiResponse where
  status : Nat
  message : String
  deriving DecidableEq

/-- `POST /api/submit-guard` (web/server.js:245-256): rejected with 400 unless
the bot exists and `_waitingForGuard` is set; on success the code is forwarded
and the submission logged, with no state change. -/
def submitGuard (r : Registry) (username code : String) :
    Registry × ApiResponse × List Ev :=
  match regLookup r username with
  | none =>
      (r, ⟨400, "No Steam Guard request pending for this account or bot not running"⟩, [])
  | some bot =>
      if bot.waitingForGuard then
        (r, ⟨200, "Code submitted"⟩,
         [Ev.submitCode username code,
          Ev.log ("[" ++ username ++ "] Steam Guard code submitted.")])
      else
        (r, ⟨400, "No Steam Guard request pending for this account or bot not running"⟩, [])

/-- One element of the `GET /api/accounts` response (web/server.js:188-200):
the credential fields (`password`, `sharedSecret`) are deliberately absent. -/
structure AccountView where
  username : String
  enableStatus : Bool
  gamesAndStatus : List String
  replyMessage : String
  receiveMessages : Bool
  saveMessages : Bool
  running : Bool
  deriving DecidableEq

/-- `GET /api/accounts`: map the config cache to the external shape, with
`running` read from the `bots` registry. -/
def listStatus (cfgs : List Config) (r : Registry) : List AccountView :=
  cfgs.map (fun c =>
    { username := c.username
      enableStatus := c.enableStatus
      gamesAndStatus := c.gamesAndStatus
      replyMessage := c.replyMessage
      receiveMessages := c.receiveMessages
      saveMessages := c.saveMessages
      running := (regLookup r c.username).isSome })

/-- Equality of configs on every field except the credentials
(`password`, `sharedSecret`). -/
def credEquiv (c1 c2 : Config) : Prop :=
  c1.username = c2.username ∧ c1.enableStatus = c2.enableStatus ∧
  c1.gamesAndStatus = c2.gamesAndStatus ∧ c1.replyMessage = c2.replyMessage ∧
  c1.receiveMessages = c2.receiveMessages ∧ c1.saveMessages = c2.saveMessages

/-- Combined mutable server state: the `bots` registry and the
`configsArray` cache. -/
structure ServerState where
  bots : Registry
  configsArray : List Config
  deriving DecidableEq

/-- The request body of `PUT /api/edit-account/:username`: each field is
optional; absent fields keep their old value under the JS object spread. -/
structure UpdateData where
  username : Option String
  password : Option String
  sharedSecret : Option String
  enableStatus : Option Bool
  gamesAndStatus : Option (List String)
  replyMessage : Option String
  receiveMessages : Option Bool
  saveMessages : Option Bool
  deriving DecidableEq

/-- The spread `{...originalAccount, ...updatedData, username:
originalAccount.username}` (web/server.js:297-301): updated fields win,
except `username`, which is forced back to the original. -/
def mergeAccount (orig : Config) (upd : UpdateData) : Config :=
  { username := orig.username
    password := upd.password.getD orig.password
    sharedSecret := upd.sharedSecret.getD orig.sharedSecret
    enableStatus := upd.enableStatus.getD orig.enableStatus
    gamesAndStatus := upd.gamesAndStatus.getD orig.gamesAndStatus
    replyMessage := upd.replyMessage.getD orig.replyMessage
    receiveMessages := upd.receiveMessages.getD orig.receiveMessages
    saveMessages := upd.saveMessages.getD orig.saveMessages }

/-- Replace the first config with the given username (the `findIndex` slot) by
its merge with the update. -/
def replaceFirst : List Config → String → UpdateData → List Config
  | [], _, _ => []
  | a :: rest, username, upd =>
      if a.username == username then mergeAccount a upd :: rest
      else a :: replaceFirst rest username upd

/-- Remove the first config with the given username
(`configsArray.splice(accountIndex, 1)`). -/
def removeFirst : List Config → String → List Config
  | [], _ => []
  | a :: rest, username =>
      if a.username == username then rest else a :: removeFirst rest username

/-- `PUT /api/edit-account/:username` (web/server.js:286-314): 404 when the
account is unknown; otherwise merge the update into the config slot, stop the
bot if it is running, persist, log, broadcast. -/
def editAccount (st : ServerState) (username : String) (upd : UpdateData)
    (logOffThrows : Option String) : ServerState × ApiResponse × List Ev :=
  if st.configsArray.any (fun a => a.username == username) then
    let cfgs2 := replaceFirst st.configsArray username upd
    let stopped :=
      if (regLookup st.bots username).isSome then
        let s := stopBot username logOffThrows st.bots
        (s.1,
         [Ev.log ("[" ++ username ++
            "] Account edited. Stopping the bot to apply changes. Please restart manually.")] ++ s.2)
      else (st.bots, [])
    ({ bots := stopped.1, configsArray := cfgs2 },
     ⟨200, "Account updated successfully. Restart the bot if it was running."⟩,
     stopped.2 ++
     [Ev.saveConfigCall,
      Ev.log ("[" ++ username ++ "] Account updated."),
      Ev.statusUpdate])
  else
    (st, ⟨404, "Account not found"⟩, [])

/-- `DELETE /api/delete-account/:username` (web/server.js:317-335): 404 when
unknown; otherwise stop the bot if running, splice the config out, persist,
log, broadcast. -/
def deleteAccount (st : ServerState) (username : String)
    (logOffThrows : Option String) : ServerState × ApiResponse × List Ev :=
  if st.configsArray.any (fun a => a.username == username) then
    let stopped :=
      if (regLookup st.bots username).isSome then
        stopBot username logOffThrows st.bots
      else (st.bots, [])
    ({ bots := stopped.1, configsArray := removeFirst st.configsArray username },
     ⟨200, "Account deleted successfully"⟩,
     stopped.2 ++
     [Ev.saveConfigCall,
      Ev.log ("[" ++ username ++ "] Account deleted."),
      Ev.statusUpdate])
  else
    (st, ⟨404, "Account not found"⟩, [])

/-- Is this event an `fs.unlink` attempt? -/
def isUnlink : Ev → Bool
  | Ev.log _ => false
  | Ev.statusUpdate => false
  | Ev.buildClient _ => false
  | Ev.doLoginCall _ => false
  | Ev.logOffCall _ => false
  | Ev.chatMessage _ _ => false
  | Ev.saveMessage _ _ _ => false
  | Ev.unlink _ => true
  | Ev.submitCode _ _ => false
  | Ev.steamGuardRequest _ => false
  | Ev.saveConfigCall => false

/-- Is this event an outbound chat message to the given peer? -/
def isReplyTo (sid : String) : Ev → Bool
  | Ev.log _ => false
  | Ev.statusUpdate => false
  | Ev.buildClient _ => false
  | Ev.doLoginCall _ => false
  | Ev.logOffCall _ => false
  | Ev.chatMessage p _ => p == sid
  | Ev.saveMessage _ _ _ => false
  | Ev.unlink _ => false
  | Ev.submitCode _ _ => false
  | Ev.steamGuardRequest _ => false
  | Ev.saveConfigCall => false

/-- Number of auto-replies to a given peer in a trace. -/
def countReplies (sid : String) (evs : List Ev) : Nat :=
  evs.countP (isReplyTo sid)

/-- A concrete account configuration used to instantiate the theorems. -/
def exampleCfg : Config :=
  { username := "alice"
    password := "pw1"
    sharedSecret := "secret1"
    enableStatus := true
    gamesAndStatus := ["730"]
    replyMessage := "hi"
    receiveMessages := true
    saveMessages := false }

/-- The same account with different credential fields only. -/
def exampleCfg2 : Config :=
  { exampleCfg with password := "pw2", sharedSecret := "secret2" }

/-- A concrete bot client state: running for "alice", peer "p1" already
replied to, a stored login key, and a pending guard challenge. -/
def exampleBot : BotClient :=
  { username := "alice"
    autoMessage := "hi"
    receiveMessages := true
    saveMessages := false
    messageReceived := ["p1"]
    loginKeyPath := some "keys/alice.key"
    waitingForGuard := true }

/-! Registry lemmas. -/

theorem regLookup_erase_self (r : Registry) (u : String) :
    regLookup (regErase r u) u = none := by
  induction r with
  | nil => rfl
  | cons p rest ih =>
    obtain ⟨k, b⟩ := p
    by_cases h : k = u
    · simpa [regErase, List.filter_cons, h] using ih
    · simpa [regErase, List.filter_cons, regLookup, h, bne] using ih

theorem regLookup_append_of_none {r : Registry} {u : String}
    (h : regLookup r u = none) (s : Registry) :
    regLookup (r ++ s) u = regLookup s u := by
  induction r with
  | nil => rfl
  | cons p rest ih =>
    obtain ⟨k, b⟩ := p
    by_cases hk : k = u
    · simp [regLookup, hk] at h
    · simp only [List.cons_append] at *
      simp only [regLookup, hk, beq_iff_eq, if_false] at h ⊢
      exact ih h

theorem regCountKey_eq_zero_of_none {r : Registry} {u : String}
    (h : regLookup r u = none) : regCountKey r u = 0 := by
  induction r with
  | nil => rfl
  | cons p rest ih =>
    obtain ⟨k, b⟩ := p
    by_cases hk : k = u
    · simp [regLookup, hk] at h
    · simp only [regLookup, hk, beq_iff_eq, if_false] at h
      simp only [regCountKey, List.filter_cons, hk, beq_iff_eq, if_false] at *
      exact ih h

theorem regCountKey_append (r s : Registry) (u : String) :
    regCountKey (r ++ s) u = regCountKey r u + regCountKey s u := by
  simp [regCountKey, List.filter_append]

theorem regInsert_of_none {r : Registry} {u : String} (b : BotClient)
    (h : regLookup r u = none) : regInsert r u b = r ++ [(u, b)] := by
  simp [regInsert, h]

theorem regLookup_insert_self {r : Registry} {u : String} (b : BotClient)
    (h : regLookup r u = none) : regLookup (regInsert r u b) u = some b := by
  rw [regInsert_of_none b h, regLookup_append_of_none h]
  simp [regLookup]

theorem lookup_isSome_of_erase {r : Registry} {u k : String}
    (h : (regLookup (regErase r u) k).isSome = true) :
    (regLookup r k).isSome = true := by
  induction r with
  | nil => simpa [regErase] using h
  | cons p rest ih =>
    obtain ⟨k2, b⟩ := p
    by_cases hk : k2 = k
    · simp [regLookup, hk]
    · have h2 : (regLookup (regErase rest u) k).isSome = true := by
        by_cases hu : k2 = u
        · simpa [regErase, List.filter_cons, hu] using h
        · simpa [regErase, List.filter_cons, regLookup, hu, hk, bne] using h
      simp only [regLookup, hk, beq_iff_eq, if_false]
      exact ih h2

/-! Auto-reply lemmas. -/

theorem countReplies_append (sid : String) (l1 l2 : List Ev) :
    countReplies sid (l1 ++ l2) = countReplies sid l1 + countReplies sid l2 := by
  simp [countReplies, List.countP_append]

theorem fm_state (bot : BotClient) (p t : String) :
    (handleFriendMessage bot p t).1 =
      (if !(memStr p bot.messageReceived) && bot.autoMessage != "" then
        { bot with messageReceived := p :: bot.messageReceived }
       else bot) := by
  by_cases h : (!(memStr p bot.messageReceived) && bot.autoMessage != "") = true <;>
    simp [handleFriendMessage, h]

theorem fm_count (bot : BotClient) (p t sid : String) :
    countReplies sid (handleFriendMessage bot p t).2 =
      (if (!(memStr p bot.messageReceived) && bot.autoMessage != "") && p == sid then
        1
       else 0) := by
  by_cases h : (!(memStr p bot.messageReceived) && bot.autoMessage != "") = true <;>
    by_cases h2 : (p == sid) = true <;>
      by_cases hr : bot.receiveMessages <;>
        by_cases hs : bot.saveMessages <;>
          simp [handleFriendMessage, countReplies, isReplyTo, h, h2, hr, hs]

theorem runMessages_cons (bot : BotClient) (p t : String)
    (rest : List (String × String)) :
    runMessages bot ((p, t) :: rest) =
      ((runMessages (handleFriendMessage bot p t).1 rest).1,
       (handleFriendMessage bot p t).2 ++
         (runMessages (handleFriendMessage bot p t).1 rest).2) := rfl

theorem runMessages_no_reply_of_mem (msgs : List (String × String)) :
    ∀ bot : BotClient, ∀ sid : String, memStr sid bot.messageReceived = true →
      countReplies sid (runMessages bot msgs).2 = 0 := by
  induction msgs with
  | nil => intro bot sid h; simp [runMessages, countReplies]
  | cons m rest ih =>
    intro bot sid h
    obtain ⟨p, t⟩ := m
    rw [runMessages_cons]
    rw [countReplies_append]
    have hstep : countReplies sid (handleFriendMessage bot p t).2 = 0 := by
      rw [fm_count]
      by_cases hp : p = sid
      · subst hp; simp [h]
      · simp [hp]
    have hmem : memStr sid (handleFriendMessage bot p t).1.messageReceived = true := by
      rw [fm_state]
      by_cases hc : (!(memStr p bot.messageReceived) && bot.autoMessage != "") = true <;>
        simp [hc, memStr, h]
    rw [hstep, ih _ sid hmem]

theorem runMessages_reply_le_one (msgs : List (String × String)) :
    ∀ bot : BotClient, ∀ sid : String,
      countReplies sid (runMessages bot msgs).2 ≤ 1 := by
  induction msgs with
  | nil => intro bot sid; simp [runMessages, countReplies]
  | cons m rest ih =>
    intro bot sid
    obtain ⟨p, t⟩ := m
    rw [runMessages_cons]
    rw [countReplies_append]
    by_cases hrep : ((!(memStr p bot.messageReceived) && bot.autoMessage != "") && p == sid) = true
    · have hp : p = sid := by
        have := (Bool.and_eq_true _ _).mp hrep
        exact eq_of_beq this.2
      have hmem : memStr sid (handleFriendMessage bot p t).1.messageReceived = true := by
        have hc := (Bool.and_eq_true _ _).mp hrep
        rw [fm_state, if_pos hc.1]
        simp [memStr, hp]
      rw [fm_count, if_pos hrep, runMessages_no_reply_of_mem rest _ sid hmem]
    · rw [fm_count, if_neg hrep]
      simpa using ih (handleFriendMessage bot p t).1 sid

/-! Claim theorems. -/

/-- C1: starting an account that is not yet running and then immediately
starting it again leaves exactly one entry for that identifier in the `bots`
registry; the second call emits only the "already running" log line and
leaves the registry unchanged — in particular it builds no client and
inserts nothing (and, being a total function, raises no error). -/
theorem start_twice_single_session (cfg : Config) (r : Registry)
    (h : regLookup r cfg.username = none) :
    regCountKey (startBot cfg (startBot cfg r).1).1 cfg.username = 1 ∧
    (startBot cfg (startBot cfg r).1).1 = (startBot cfg r).1 ∧
    (startBot cfg (startBot cfg r).1).2 =
      [Ev.log ("[" ++ cfg.username ++ "] Bot is already running.")] := by
  have h1 : (startBot cfg r).1 = r ++ [(cfg.username, buildBot cfg)] := by
    simp [startBot, h, regInsert_of_none]
  have h2 : regLookup (startBot cfg r).1 cfg.username = some (buildBot cfg) := by
    rw [h1, regLookup_append_of_none h]
    simp [regLookup]
  have h3 : startBot cfg (startBot cfg r).1 =
      ((startBot cfg r).1,
       [Ev.log ("[" ++ cfg.username ++ "] Bot is already running.")]) := by
    generalize hR : (startBot cfg r).1 = r1 at h2 ⊢
    simp [startBot, h2]
  refine ⟨?_, by rw [h3], by rw [h3]⟩
  rw [h3]
  simp only [h1, regCountKey_append, regCountKey_eq_zero_of_none h]
  simp [regCountKey, List.filter]

/-- C1 witness: the concrete account on the empty registry. -/
theorem start_twice_single_session_witness :
    regCountKey (startBot exampleCfg (startBot exampleCfg []).1).1
      exampleCfg.username = 1 ∧
    (startBot exampleCfg (startBot exampleCfg []).1).1 = (startBot exampleCfg []).1 ∧
    (startBot exampleCfg (startBot exampleCfg []).1).2 =
      [Ev.log ("[" ++ exampleCfg.username ++ "] Bot is already running.")] :=
  start_twice_single_session exampleCfg [] rfl

/-- C2: for a session present in the registry, an error whose message
contains "LoggedInElsewhere" leaves the registry unchanged (the entry is
never removed), an error not so classified removes the entry, and a
disconnected event always removes it. -/
theorem elsewhere_error_keeps_entry (u : String) (bot : BotClient)
    (err : SteamErr) (uf : Option String) (ecode : Nat) (m : String)
    (r : Registry) (h : (regLookup r u).isSome = true) :
    (strIncludes err.message "LoggedInElsewhere" = true →
       (handleError u bot err uf r).1 = r) ∧
    (strIncludes err.message "LoggedInElsewhere" = false →
       regLookup (handleError u bot err uf r).1 u = none) ∧
    regLookup (handleDisconnected u ecode m r).1 u = none := by
  refine ⟨?_, ?_, ?_⟩
  · intro he
    simp [handleError, he]
  · intro he
    simp [handleError, he, h, regLookup_erase_self]
  · simp [handleDisconnected, regLookup_erase_self]

/-- C2 witness: a registry holding "alice", an elsewhere-classified error and
a generic error. -/
theorem elsewhere_error_keeps_entry_witness :
    ((strIncludes "LoggedInElsewhere" "LoggedInElsewhere" = true →
       (handleError "alice" exampleBot ⟨"LoggedInElsewhere", none⟩ none
          [("alice", exampleBot)]).1 = [("alice", exampleBot)]) ∧
     (strIncludes "LoggedInElsewhere" "LoggedInElsewhere" = false →
       regLookup (handleError "alice" exampleBot ⟨"LoggedInElsewhere", none⟩ none
          [("alice", exampleBot)]).1 "alice" = none) ∧
     regLookup (handleDisconnected "alice" 3 "NoConnection"
        [("alice", exampleBot)]).1 "alice" = none) ∧
    (handleError "alice" exampleBot ⟨"LoggedInElsewhere", none⟩ none
        [("alice", exampleBot)]).1 = [("alice", exampleBot)] := by
  have h := elsewhere_error_keeps_entry "alice" exampleBot
    ⟨"LoggedInElsewhere", none⟩ none 3 "NoConnection" [("alice", exampleBot)]
    (by decide)
  exact ⟨h, h.1 (by decide)⟩

/-- C3: stop on an identifier with no registry entry only logs "not running"
and changes nothing; with an entry, a throwing logoff is caught and logged,
the entry is removed unconditionally, and a status broadcast is emitted. -/
theorem stop_noop_or_removes (u : String) (t : Option String) (r : Registry) :
    (regLookup r u = none →
       stopBot u t r = (r, [Ev.log ("[" ++ u ++ "] Bot is not running.")])) ∧
    ((regLookup r u).isSome = true →
       regLookup (stopBot u t r).1 u = none ∧
       Ev.statusUpdate ∈ (stopBot u t r).2 ∧
       ∀ m : String, t = some m →
         Ev.log ("[" ++ u ++ "] Error during logOff: " ++ m) ∈ (stopBot u t r).2) := by
  constructor
  · intro h
    simp [stopBot, h]
  · intro h
    obtain ⟨b, hb⟩ := Option.isSome_iff_exists.mp h
    refine ⟨?_, ?_, ?_⟩
    · simp [stopBot, hb, regLookup_erase_self]
    · cases t <;> simp [stopBot, hb]
    · intro m hm
      subst hm
      simp [stopBot, hb]

/-- C3 witness: the unknown account "ghost" and the running account "alice"
whose logoff throws. -/
theorem stop_noop_or_removes_witness :
    stopBot "ghost" none [] =
      ([], [Ev.log ("[" ++ "ghost" ++ "] Bot is not running.")]) ∧
    regLookup (stopBot "alice" (some "boom") [("alice", exampleBot)]).1 "alice" = none ∧
    Ev.statusUpdate ∈ (stopBot "alice" (some "boom") [("alice", exampleBot)]).2 ∧
    Ev.log ("[" ++ "alice" ++ "] Error during logOff: " ++ "boom") ∈
      (stopBot "alice" (some "boom") [("alice", exampleBot)]).2 := by
  have h1 := (stop_noop_or_removes "ghost" none []).1 rfl
  have h2 := (stop_noop_or_removes "alice" (some "boom") [("alice", exampleBot)]).2
    (by decide)
  exact ⟨h1, h2.1, h2.2.1, h2.2.2 "boom" rfl⟩

/-- C4: an error carrying the invalid-password result code, handled for a bot
holding a stored login-key path, triggers exactly one unlink attempt whether
the deletion succeeds or fails; a failed deletion contributes only a log line
and leaves the resulting registry identical to the successful case. -/
theorem invalid_password_unlinks_once (u : String) (bot : BotClient)
    (err : SteamErr) (uf : Option String) (r : Registry) (p : String)
    (hres : err.eresult = some eresultInvalidPassword)
    (hpath : bot.loginKeyPath = some p) :
    (handleError u bot err uf r).2.countP isUnlink = 1 ∧
    (handleError u bot err uf r).1 = (handleError u bot err none r).1 ∧
    (∀ m : String, uf = some m →
       Ev.log ("[" ++ u ++ "] Could not delete old login key: " ++ m) ∈
         (handleError u bot err uf r).2) := by
  refine ⟨?_, ?_, ?_⟩
  · cases uf <;>
      by_cases hel : strIncludes err.message "LoggedInElsewhere" = true <;>
        by_cases hs : (regLookup r u).isSome = true <;>
          simp [handleError, hres, hpath, hel, hs, isUnlink, List.countP_cons,
            List.countP_append]
  · cases uf <;>
      by_cases hel : strIncludes err.message "LoggedInElsewhere" = true <;>
        by_cases hs : (regLookup r u).isSome = true <;>
          simp [handleError, hres, hpath, hel, hs]
  · intro m hm
    subst hm
    by_cases hel : strIncludes err.message "LoggedInElsewhere" = true <;>
      by_cases hs : (regLookup r u).isSome = true <;>
        simp [handleError, hres, hpath, hel, hs]

/-- C4 witness: an invalid-password error for "alice", once with the deletion
failing and once with it succeeding. -/
theorem invalid_password_unlinks_once_witness :
    (handleError "alice" exampleBot ⟨"InvalidPassword", some 5⟩ (some "EPERM")
        [("alice", exampleBot)]).2.countP isUnlink = 1 ∧
    (handleError "alice" exampleBot ⟨"InvalidPassword", some 5⟩ (some "EPERM")
        [("alice", exampleBot)]).1 =
      (handleError "alice" exampleBot ⟨"InvalidPassword", some 5⟩ none
        [("alice", exampleBot)]).1 ∧
    Ev.log ("[" ++ "alice" ++ "] Could not delete old login key: " ++ "EPERM") ∈
      (handleError "alice" exampleBot ⟨"InvalidPassword", some 5⟩ (some "EPERM")
        [("alice", exampleBot)]).2 := by
  have h := invalid_password_unlinks_once "alice" exampleBot
    ⟨"InvalidPassword", some 5⟩ (some "EPERM") [("alice", exampleBot)]
    "keys/alice.key" rfl rfl
  exact ⟨h.1, h.2.1, h.2.2 "EPERM" rfl⟩

/-- C5: over any sequence of peer messages delivered in one session lifetime,
at most one auto-reply is sent to any given peer; a single message from the
peer triggers a reply exactly when auto-reply is enabled (non-empty
`autoMessage`) and the peer is not yet in the seen set, and the peer enters
the seen set at the same step the reply is sent. -/
theorem at_most_one_autoreply (bot : BotClient) (sid t : String)
    (msgs : List (String × String)) :
    countReplies sid (runMessages bot msgs).2 ≤ 1 ∧
    (0 < countReplies sid (handleFriendMessage bot sid t).2 ↔
       (memStr sid bot.messageReceived = false ∧ bot.autoMessage ≠ "")) ∧
    (memStr sid bot.messageReceived = false → bot.autoMessage ≠ "" →
       memStr sid (handleFriendMessage bot sid t).1.messageReceived = true) := by
  refine ⟨runMessages_reply_le_one msgs bot sid, ?_, ?_⟩
  · rw [fm_count]
    by_cases h1 : memStr sid bot.messageReceived = false <;>
      by_cases h2 : bot.autoMessage = "" <;>
        simp [h1, h2, Bool.eq_false_iff] at *
  · intro h1 h2
    rw [fm_state, if_pos]
    · simp [memStr]
    · simp [h1, h2]

/-- C5 witness: the spec scenario — "alice" with reply text "hi", peer "p1"
sends two messages to a fresh bot, exactly one reply goes out. -/
theorem at_most_one_autoreply_witness :
    countReplies "p1" (runMessages (buildBot exampleCfg)
      [("p1", "hello"), ("p1", "hello")]).2 ≤ 1 ∧
    countReplies "p1" (runMessages (buildBot exampleCfg)
      [("p1", "hello"), ("p1", "hello")]).2 = 1 :=
  ⟨(at_most_one_autoreply (buildBot exampleCfg) "p1" "hello"
      [("p1", "hello"), ("p1", "hello")]).1,
   by decide⟩

/-- C6: stopping an account and starting it again installs a freshly built
client whose seen-peer set is empty, so a peer (even one already replied to
before the restart) receives exactly one auto-reply after the restart
whenever the configured reply text is non-empty. -/
theorem restart_resets_seen_peers (cfg : Config) (r : Registry)
    (t : Option String) (peer m : String) (hmsg : cfg.replyMessage ≠ "") :
    regLookup (stopBot cfg.username t r).1 cfg.username = none ∧
    regLookup (startBot cfg (stopBot cfg.username t r).1).1 cfg.username =
      some (buildBot cfg) ∧
    (buildBot cfg).messageReceived = [] ∧
    countReplies peer (handleFriendMessage (buildBot cfg) peer m).2 = 1 := by
  have h1 : regLookup (stopBot cfg.username t r).1 cfg.username = none := by
    cases hb : regLookup r cfg.username with
    | none => simp [stopBot, hb]
    | some b => simp [stopBot, hb, regLookup_erase_self]
  refine ⟨h1, ?_, rfl, ?_⟩
  · generalize hR : (stopBot cfg.username t r).1 = r1 at h1
    simp only [startBot, h1, Option.isSome_none, Bool.false_eq_true, if_false]
    exact regLookup_insert_self (buildBot cfg) h1
  · rw [fm_count, if_pos]
    simp [buildBot, memStr, hmsg]

/-- C6 witness: "alice" running with peer "p1" already replied to, stopped
and restarted, then messaged once by "p1". -/
theorem restart_resets_seen_peers_witness :
    regLookup (stopBot exampleCfg.username none
      [("alice", exampleBot)]).1 exampleCfg.username = none ∧
    regLookup (startBot exampleCfg (stopBot exampleCfg.username none
      [("alice", exampleBot)]).1).1 exampleCfg.username = some (buildBot exampleCfg) ∧
    (buildBot exampleCfg).messageReceived = [] ∧
    countReplies "p1" (handleFriendMessage (buildBot exampleCfg) "p1" "hello").2 = 1 :=
  restart_resets_seen_peers exampleCfg [("alice", exampleBot)] none "p1" "hello"
    (by decide)

/-- C7: submit-guard succeeds (HTTP 200, code forwarded and logged) exactly
when a bot for the identifier exists and its waiting-for-guard flag is set;
in every other case it fails synchronously with HTTP 400 and does nothing,
and in all cases the registry — hence every session's state — is unchanged. -/
theorem submit_guard_requires_pending (r : Registry) (u code : String) :
    (submitGuard r u code).1 = r ∧
    (match regLookup r u with
     | some bot =>
         if bot.waitingForGuard then
           (submitGuard r u code).2.1.status = 200 ∧
           (submitGuard r u code).2.2 =
             [Ev.submitCode u code,
              Ev.log ("[" ++ u ++ "] Steam Guard code submitted.")]
         else
           (submitGuard r u code).2.1.status = 400 ∧ (submitGuard r u code).2.2 = []
     | none =>
         (submitGuard r u code).2.1.status = 400 ∧ (submitGuard r u code).2.2 = []) := by
  cases hb : regLookup r u with
  | none => simp [submitGuard, hb]
  | some bot =>
    by_cases hw : bot.waitingForGuard <;> simp [submitGuard, hb, hw]

/-- C8: the accounts listing exposes, per config entry, the identifier, the
display fields, and a running flag that is set exactly when a registry entry
exists; it is invariant under changing only the credential fields (password,
shared secret) of the stored configs. -/
theorem list_status_no_credential_leak (cfgs cfgs2 : List Config) (r : Registry)
    (h : List.Forall₂ credEquiv cfgs cfgs2) :
    listStatus cfgs r = listStatus cfgs2 r ∧
    ∀ c ∈ cfgs,
      ({ username := c.username
         enableStatus := c.enableStatus
         gamesAndStatus := c.gamesAndStatus
         replyMessage := c.replyMessage
         receiveMessages := c.receiveMessages
         saveMessages := c.saveMessages
         running := (regLookup r c.username).isSome } : AccountView) ∈
        listStatus cfgs r := by
  constructor
  · induction h with
    | nil => rfl
    | cons hc htail ih =>
      obtain ⟨h1, h2, h3, h4, h5, h6⟩ := hc
      simp only [listStatus, List.map_cons, List.cons.injEq] at ih ⊢
      exact ⟨by rw [h1, h2, h3, h4, h5, h6], ih⟩
  · intro c hc
    exact List.mem_map_of_mem _ hc

/-- C8 witness: two single-account stores that differ only in password and
shared secret, listed over a registry running "alice". -/
theorem list_status_no_credential_leak_witness :
    listStatus [exampleCfg] [("alice", exampleBot)] =
      listStatus [exampleCfg2] [("alice", exampleBot)] ∧
    ∀ c ∈ [exampleCfg],
      ({ username := c.username
         enableStatus := c.enableStatus
         gamesAndStatus := c.gamesAndStatus
         replyMessage := c.replyMessage
         receiveMessages := c.receiveMessages
         saveMessages := c.saveMessages
         running := (regLookup [("alice", exampleBot)] c.username).isSome } :
        AccountView) ∈ listStatus [exampleCfg] [("alice", exampleBot)] :=
  list_status_no_credential_leak [exampleCfg] [exampleCfg2] [("alice", exampleBot)]
    (List.Forall₂.cons ⟨rfl, rfl, rfl, rfl, rfl, rfl⟩ List.Forall₂.nil)

/-- C9 counterexample: on the empty registry the `loggedOn` event handler
itself inserts an entry for "alice" — an insertion performed by an event
handler, not by a start call, so start is not the only insertion point. -/
theorem logged_on_inserts_counterexample :
    regLookup ([] : Registry) "alice" = none ∧
    regLookup (handleLoggedOn "alice" exampleBot ([] : Registry)).1 "alice" =
      some exampleBot := by
  constructor
  · rfl
  · decide

/-- C9 amended: insertions into the `bots` registry happen at exactly two
places — `startBot`, which inserts a freshly built client only when no entry
exists, and the `loggedOn` event handler, which re-inserts its bot only when
no entry exists; the error, disconnected, steam-guard handlers and the
stop/submit-guard operations never add a key (the friend-message handler does
not touch the registry at all). -/
theorem registry_insertion_points (u k : String) (b : BotClient)
    (err : SteamErr) (uf : Option String) (ecode : Nat) (m : String)
    (t : Option String) (cfg : Config) (code : String) (r : Registry) :
    ((regLookup (handleError u b err uf r).1 k).isSome = true →
       (regLookup r k).isSome = true) ∧
    ((regLookup (handleDisconnected u ecode m r).1 k).isSome = true →
       (regLookup r k).isSome = true) ∧
    ((regLookup (stopBot u t r).1 k).isSome = true →
       (regLookup r k).isSome = true) ∧
    (submitGuard r u code).1 = r ∧
    (handleSteamGuardRequested u r).1 = r ∧
    (handleLoggedOn u b r).1 =
      (if (regLookup r u).isSome then r else regInsert r u b) ∧
    (startBot cfg r).1 =
      (if (regLookup r cfg.username).isSome then r
       else regInsert r cfg.username (buildBot cfg)) := by
  refine ⟨?_, ?_, ?_, ?_, rfl, rfl, ?_⟩
  · intro h
    by_cases hel : strIncludes err.message "LoggedInElsewhere" = true <;>
      by_cases hs : (regLookup r u).isSome = true <;>
        · first
          | (apply lookup_isSome_of_erase
             simpa [handleError, hel, hs] using h)
          | simpa [handleError, hel, hs] using h
  · intro h
    exact lookup_isSome_of_erase h
  · intro h
    cases hb : regLookup r u with
    | none => simpa [stopBot, hb] using h
    | some bot =>
      apply lookup_isSome_of_erase
      simpa [stopBot, hb] using h
  · cases hb : regLookup r u with
    | none => simp [submitGuard, hb]
    | some bot => by_cases hw : bot.waitingForGuard <;> simp [submitGuard, hb, hw]
  · by_cases hs : (regLookup r cfg.username).isSome = true <;> simp [startBot, hs]

/-- C9 amended witness: concrete instantiation on a one-entry registry. -/
theorem registry_insertion_points_witness :
    (regLookup (handleDisconnected "alice" 3 "NoConnection"
       [("alice", exampleBot)]).1 "alice").isSome = true →
      (regLookup ([("alice", exampleBot)] : Registry) "alice").isSome = true :=
  (registry_insertion_points "alice" "alice" exampleBot ⟨"err", none⟩ none 3
    "NoConnection" none exampleCfg "12345" [("alice", exampleBot)]).2.1

/-- Merging an update into a config slot never changes the stored usernames,
whatever username the request body carries. -/
theorem replaceFirst_usernames (cfgs : List Config) (u : String)
    (upd : UpdateData) :
    (replaceFirst cfgs u upd).map Config.username = cfgs.map Config.username := by
  induction cfgs with
  | nil => rfl
  | cons a rest ih =>
    by_cases h : a.username == u <;> simp [replaceFirst, h, mergeAccount, ih]

/-- C10: for an account that exists in the config store and whose bot is in
the registry, edit-account and delete-account both stop the bot, so afterward
the registry holds no entry for the identifier; their traces run the full
stop sequence before the config save; and edit-account leaves every stored
username unchanged even when the request body supplies a different one. -/
theorem edit_delete_stop_before_persist (st : ServerState) (u : String)
    (upd : UpdateData) (t : Option String)
    (hcfg : st.configsArray.any (fun a => a.username == u) = true)
    (hbot : (regLookup st.bots u).isSome = true) :
    regLookup (editAccount st u upd t).1.bots u = none ∧
    regLookup (deleteAccount st u t).1.bots u = none ∧
    (editAccount st u upd t).1.configsArray.map Config.username =
      st.configsArray.map Config.username ∧
    (editAccount st u upd t).2.2 =
      [Ev.log ("[" ++ u ++
        "] Account edited. Stopping the bot to apply changes. Please restart manually.")] ++
      (stopBot u t st.bots).2 ++
      [Ev.saveConfigCall, Ev.log ("[" ++ u ++ "] Account updated."),
       Ev.statusUpdate] ∧
    (deleteAccount st u t).2.2 =
      (stopBot u t st.bots).2 ++
      [Ev.saveConfigCall, Ev.log ("[" ++ u ++ "] Account deleted."),
       Ev.statusUpdate] := by
  obtain ⟨b, hb⟩ := Option.isSome_iff_exists.mp hbot
  have hstop : regLookup (stopBot u t st.bots).1 u = none := by
    simp [stopBot, hb, regLookup_erase_self]
  refine ⟨?_, ?_, ?_, ?_, ?_⟩
  · simpa [editAccount, hcfg, hbot] using hstop
  · simpa [deleteAccount, hcfg, hbot] using hstop
  · simp [editAccount, hcfg, hbot, replaceFirst_usernames]
  · simp [editAccount, hcfg, hbot]
  · simp [deleteAccount, hcfg, hbot]

/-- C10 witness: "alice" present in the config store and running, edited with
a request body that tries to rename it, and deleted. -/
theorem edit_delete_stop_before_persist_witness :
    regLookup (editAccount ⟨[("alice", exampleBot)], [exampleCfg]⟩ "alice"
      ⟨some "mallory", none, none, none, none, none, none, none⟩ none).1.bots
      "alice" = none ∧
    regLookup (deleteAccount ⟨[("alice", exampleBot)], [exampleCfg]⟩ "alice"
      none).1.bots "alice" = none ∧
    (editAccount ⟨[("alice", exampleBot)], [exampleCfg]⟩ "alice"
      ⟨some "mallory", none, none, none, none, none, none, none⟩
      none).1.configsArray.map Config.username =
      [exampleCfg].map Config.username := by
  have h := edit_delete_stop_before_persist ⟨[("alice", exampleBot)], [exampleCfg]⟩
    "alice" ⟨some "mallory", none, none, none, none, none, none, none⟩ none
    (by decide) (by decide)
  exact ⟨h.1, h.2.1, h.2.2.1⟩
